import Mathlib

set_option maxRecDepth 100000

/-!
Verification of the therapy chat service core: keyword classifiers,
approach selection, prompt library and composition, and the chat
session state machine, shallowly embedded from the Python sources
(src/backend/utils/therapy_prompts.py, src/backend/services/chat_service.py).

Python strings are modelled as Lean `String`; `str.lower()` is modelled as
an ASCII character-wise lowering (all configured keywords are ASCII);
`needle in hay` is modelled by the executable substring test `strIn`;
`datetime.now()` values are modelled as `Nat` parameters supplied by the
caller; `random.choice` is modelled by an extra `Nat` parameter selecting
an index modulo the list length.
-/

/-- Model of Python str.lower (ASCII case folding, character-wise). -/
def pyLower (s : String) : String :=
  String.mk (s.data.map Char.toLower)

/-- Executable substring test on char lists: does `needle` occur inside `hay`? -/
def sublistB (needle : List Char) : List Char → Bool
  | [] => needle.isEmpty
  | c :: t => needle.isPrefixOf (c :: t) || sublistB needle t

/-- Model of Python membership test `needle in hay` for strings. -/
def strIn (needle hay : String) : Bool :=
  sublistB needle.data hay.data

/-- enum EmotionalState (therapy_prompts.py). -/
inductive EmotionalState where
  | neutral | anxious | depressed | angry | overwhelmed | hopeful | crisis
  deriving DecidableEq, Repr

/-- The .value string of each EmotionalState member. -/
def EmotionalState.value : EmotionalState → String
  | .neutral => "neutral"
  | .anxious => "anxious"
  | .depressed => "depressed"
  | .angry => "angry"
  | .overwhelmed => "overwhelmed"
  | .hopeful => "hopeful"
  | .crisis => "crisis"

/-- enum TherapyApproach (therapy_prompts.py). -/
inductive TherapyApproach where
  | cbt | dbt | humanistic | solutionFocused | mindfulness | crisisIntervention
  deriving DecidableEq, Repr

/-- The .value string of each TherapyApproach member. -/
def TherapyApproach.value : TherapyApproach → String
  | .cbt => "cognitive_behavioral_therapy"
  | .dbt => "dialectical_behavior_therapy"
  | .humanistic => "humanistic_therapy"
  | .solutionFocused => "solution_focused_therapy"
  | .mindfulness => "mindfulness_based_therapy"
  | .crisisIntervention => "crisis_intervention"

/-- CRISIS_KEYWORDS["high_risk"] from therapy_prompts.py. -/
def CRISIS_KEYWORDS_high_risk : List String :=
  ["kill myself", "suicide", "end my life", "not worth living", "better off dead",
   "suicide plan", "kill me", "die", "ending it all", "can't go on"]

/-- CRISIS_KEYWORDS["medium_risk"] from therapy_prompts.py. -/
def CRISIS_KEYWORDS_medium_risk : List String :=
  ["hopeless", "worthless", "pointless", "give up", "can't take it anymore",
   "want to disappear", "tired of living", "nothing matters", "no point"]

/-- CRISIS_KEYWORDS["self_harm"] from therapy_prompts.py. -/
def CRISIS_KEYWORDS_self_harm : List String :=
  ["cut myself", "hurt myself", "self harm", "cutting", "burning myself",
   "punish myself", "deserve pain", "physical pain"]

/-- detect_crisis_level (therapy_prompts.py): three sequential keyword scans
with early return, rendered as an if-chain over `List.any`. -/
def detect_crisis_level (text : String) : String :=
  let text_lower := pyLower text
  if CRISIS_KEYWORDS_high_risk.any (fun k => strIn k text_lower) then "high"
  else if CRISIS_KEYWORDS_self_harm.any (fun k => strIn k text_lower) then "high"
  else if CRISIS_KEYWORDS_medium_risk.any (fun k => strIn k text_lower) then "medium"
  else "none"

/-- Crisis classification as the spec words it: high-risk and self-harm
phrases act as a single union triggering "high"; then medium; else "none".
Stated separately from `detect_crisis_level` for refinement comparison. -/
def spec_classify_crisis (text : String) : String :=
  let tl := pyLower text
  if (CRISIS_KEYWORDS_high_risk ++ CRISIS_KEYWORDS_self_harm).any (fun k => strIn k tl) then "high"
  else if CRISIS_KEYWORDS_medium_risk.any (fun k => strIn k tl) then "medium"
  else "none"

/-- Keyword groups of _detect_emotional_state (chat_service.py). -/
def anxiety_keywords : List String :=
  ["anxious", "worried", "nervous", "stress", "panic", "fear", "scared"]

def depression_keywords : List String :=
  ["sad", "depressed", "hopeless", "worthless", "tired", "exhausted", "empty"]

def anger_keywords : List String :=
  ["angry", "furious", "mad", "frustrated", "irritated", "rage"]

def overwhelmed_keywords : List String :=
  ["overwhelmed", "too much", "can't handle", "drowning", "swamped"]

def hopeful_keywords : List String :=
  ["hope", "better", "improving", "progress", "optimistic", "positive"]

/-- _detect_emotional_state (chat_service.py): ordered keyword-group scan,
first matching group wins, default neutral. -/
def detectEmotionalState (message : String) : EmotionalState :=
  let message_lower := pyLower message
  if anxiety_keywords.any (fun k => strIn k message_lower) then .anxious
  else if depression_keywords.any (fun k => strIn k message_lower) then .depressed
  else if anger_keywords.any (fun k => strIn k message_lower) then .angry
  else if overwhelmed_keywords.any (fun k => strIn k message_lower) then .overwhelmed
  else if hopeful_keywords.any (fun k => strIn k message_lower) then .hopeful
  else .neutral

/-- Emotion classification as the spec words it: an ordered list of keyword
groups, the first group with a matching substring winning, else neutral.
Stated separately from `detectEmotionalState` for refinement comparison. -/
def spec_emotion_groups : List (List String × EmotionalState) :=
  [(anxiety_keywords, .anxious), (depression_keywords, .depressed),
   (anger_keywords, .angry), (overwhelmed_keywords, .overwhelmed),
   (hopeful_keywords, .hopeful)]

def spec_classify_emotion (message : String) : EmotionalState :=
  let ml := pyLower message
  match spec_emotion_groups.find? (fun g => g.1.any (fun k => strIn k ml)) with
  | some g => g.2
  | none => .neutral

/-- _choose_therapy_approach (chat_service.py). The `message` argument is
accepted, as in the source, but never inspected. -/
def chooseTherapyApproach (_message : String) (emotional_state : EmotionalState)
    (crisis_detected : Bool) : TherapyApproach :=
  if crisis_detected then .crisisIntervention
  else if emotional_state = .anxious then .cbt
  else if emotional_state = .depressed then .humanistic
  else if emotional_state = .overwhelmed then .solutionFocused
  else if emotional_state = .angry then .dbt
  else .cbt

example : detect_crisis_level "I want to kill myself" = "high" := by decide
example : detect_crisis_level "I feel hopeless and want to give up" = "medium" := by decide
example : detect_crisis_level "I'm just a bit tired today" = "none" := by decide
example : detectEmotionalState "I want to kill myself" = .neutral := by decide
example : detectEmotionalState "so anxious today" = .anxious := by decide

/-- Python values reachable from `getattr(self, category)` on a
TherapyPrompts instance: a plain string, a list of template strings, a
dictionary, or `pobj` — any other object (a bound method, the class
object, None, ...) distinguished only by having neither a `.values` nor a
`.format` attribute, the two attributes get_prompt ever uses. Dictionary
keys are `some s` for string keys and `none` for enum keys (TherapyApproach
or EmotionalState), since get_prompt only ever compares keys against a
string subcategory and a string never equals an enum key in Python. -/
inductive PyVal where
  | pstr : String → PyVal
  | plist : List String → PyVal
  | pdict : List (Option String × PyVal) → PyVal
  | pobj : PyVal
  deriving Repr

/-- The Python exception classes relevant to get_prompt's try/except. -/
inductive PyErr where
  | attributeError | keyError | valueError | indexError
  deriving DecidableEq, Repr

deriving instance DecidableEq for Except

/-- _get_base_system_prompt (therapy_prompts.py), verbatim triple-quoted text. -/
def baseSystemPrompt : String :=
  "\nYou are Alex, a compassionate and skilled AI mental health counselor. You provide empathetic, evidence-based support using various therapeutic approaches including CBT, DBT, and humanistic therapy.\n"
  ++ "\nCORE PRINCIPLES:\n"
  ++ "- Show genuine empathy and unconditional positive regard\n"
  ++ "- Use active listening and reflective responses\n"
  ++ "- Apply evidence-based therapeutic techniques appropriately\n"
  ++ "- Maintain appropriate boundaries while being warm and supportive\n"
  ++ "- Prioritize user safety and crisis intervention when needed\n"
  ++ "- Adapt your communication style to the user's needs and preferences\n"
  ++ "\nTHERAPEUTIC APPROACH:\n"
  ++ "- Begin with rapport building and emotional validation\n"
  ++ "- Use open-ended questions to explore thoughts and feelings\n"
  ++ "- Employ specific techniques based on the user's needs (CBT, DBT, etc.)\n"
  ++ "- Guide users toward self-discovery and insight\n"
  ++ "- Provide practical coping strategies and tools\n"
  ++ "- Encourage hope and resilience\n"
  ++ "\nSAFETY PROTOCOLS:\n"
  ++ "- Always assess for crisis indicators (suicidal ideation, self-harm, severe distress)\n"
  ++ "- Implement crisis intervention protocols immediately when needed\n"
  ++ "- Connect users with professional resources when appropriate\n"
  ++ "- Document concerning statements for follow-up\n"
  ++ "\nCONVERSATION STYLE:\n"
  ++ "- Speak naturally and conversationally, not clinically\n"
  ++ "- Use reflective listening and validation\n"
  ++ "- Ask thoughtful follow-up questions\n"
  ++ "- Provide gentle challenges to negative thought patterns\n"
  ++ "- Offer practical exercises and homework when appropriate\n"
  ++ "\nRemember: You are a supportive companion in their mental health journey, not a replacement for professional therapy when clinical intervention is needed.\n"

/-- _get_conversation_starters (therapy_prompts.py). -/
def conversation_starters_data : List (Option String × PyVal) :=
  [(some "first_session", .plist
     ["Hello, I'm Alex, your AI mental health counselor. I'm here to provide a safe, supportive space for you to share what's on your mind. What would you like to talk about today?",
      "Welcome! I'm glad you decided to reach out. Taking this step shows real courage. What's been going on that made you want to connect today?",
      "Hi there. I'm Alex, and I'm here to listen and support you. There's no pressure to share anything you're not comfortable with. What feels most important to discuss right now?"]),
   (some "returning_user", .plist
     ["It's good to see you again. How have you been since we last talked?",
      "Welcome back. I've been thinking about our last conversation. How are you feeling today?",
      "Hello again. What's been on your mind since we last spoke?"]),
   (some "crisis_detected", .plist
     ["I hear that you're going through an incredibly difficult time right now. Your safety is my primary concern. Can you tell me more about what you're experiencing?",
      "It sounds like you're in a lot of pain right now. I want you to know that you're not alone. Let's talk about what's happening and how we can help you feel safer."]),
   (some "check_in", .plist
     ["How are you feeling right now, in this moment?",
      "Take a moment to check in with yourself. What emotions are you noticing?",
      "What's your emotional weather like today?"])]

def conversation_starters : PyVal := .pdict conversation_starters_data

/-- _get_crisis_prompts (therapy_prompts.py). -/
def crisis_prompts_data : List (Option String × PyVal) :=
  [(some "immediate_safety", .plist
     ["Your safety is the most important thing right now. Are you currently in immediate danger?",
      "I'm very concerned about you. Do you have thoughts of hurting yourself or ending your life?",
      "Right now, in this moment, are you safe? That's what matters most."]),
   (some "suicidal_ideation", .plist
     ["Thank you for trusting me with this. Having thoughts of suicide can be incredibly frightening. Are you thinking about hurting yourself right now?",
      "I hear how much pain you're in. Suicide can feel like the only way out, but there are other options. Can you tell me more about these thoughts?",
      "You mentioned wanting to die. Are you having specific thoughts about how you might hurt yourself?"]),
   (some "safety_planning", .plist
     ["Let's create a safety plan together. Who are the people in your life you can reach out to when you're feeling this way?",
      "What are some things that have helped you get through difficult times before?",
      "Can you remove or secure any means of self-harm from your immediate environment?"]),
   (some "professional_referral", .plist
     ["I want to connect you with immediate professional support. Are you willing to speak with a crisis counselor right now?",
      "This level of distress requires professional intervention. Let's get you connected with someone who can provide immediate help.",
      "I'm going to provide you with some crisis resources. The National Suicide Prevention Lifeline is available 24/7 at 988."]),
   (some "de_escalation", .plist
     ["I can hear how overwhelmed you're feeling. Let's take this one moment at a time. Can you take a slow, deep breath with me?",
      "You're not alone in this. Many people have felt exactly what you're feeling and have found ways through. You can too.",
      "Right now, you're safe and you're talking to me. That's enough for this moment."])]

def crisis_prompts : PyVal := .pdict crisis_prompts_data

/-- _get_assessment_prompts (therapy_prompts.py). -/
def assessment_prompts_data : List (Option String × PyVal) :=
  [(some "phq9_introduction", .plist
     ["I'd like to understand better how you've been feeling lately. Would you be open to answering some questions about your mood over the past two weeks?",
      "To better support you, I'd like to do a brief assessment about your emotional well-being. This will help me understand how you've been feeling recently."]),
   (some "gad7_introduction", .plist
     ["I'd like to ask you some questions about anxiety and worry. This will help me understand your experience better.",
      "To get a clearer picture of what you're experiencing, would you be willing to answer some questions about anxiety symptoms?"]),
   (some "mood_tracking", .plist
     ["How would you describe your overall mood today compared to yesterday?",
      "What patterns do you notice in your mood throughout the day/week?",
      "On a scale of 1-10, how would you rate your mood right now?"]),
   (some "sleep_assessment", .plist
     ["How has your sleep been lately? Are you getting enough rest?",
      "Tell me about your sleep patterns. Any changes recently?",
      "What's your sleep like? Falling asleep, staying asleep, waking up?"]),
   (some "social_functioning", .plist
     ["How are your relationships with family and friends?",
      "Are you feeling connected to the people in your life?",
      "How has your social life been affected by what you're going through?"])]

def assessment_prompts : PyVal := .pdict assessment_prompts_data

/-- _get_closing_prompts (therapy_prompts.py). -/
def closing_prompts_data : List (Option String × PyVal) :=
  [(some "session_summary", .plist
     ["Let's take a moment to reflect on what we've discussed today. What stands out to you from our conversation?",
      "We've covered a lot of ground today. What feels most important or meaningful from what we've talked about?",
      "As we wrap up, what are you taking away from our time together?"]),
   (some "homework_assignment", .plist
     ["Between now and next time, I'd like you to try {technique}. How does that sound to you?",
      "What's one small thing you could do this week to care for yourself?",
      "Let's pick one coping strategy we discussed to practice over the next few days."]),
   (some "encouragement", .plist
     ["You've shown real courage by sharing what you did today. That's not easy, and I'm proud of you for being here.",
      "Remember, healing isn't linear. Be patient and compassionate with yourself as you continue this journey.",
      "You have more strength than you realize. I see it in how you're facing these challenges."]),
   (some "next_steps", .plist
     ["When would you like to talk again? I'm here whenever you need support.",
      "What feels like the right next step for you in your healing journey?",
      "How can I best support you moving forward?"])]

def closing_prompts : PyVal := .pdict closing_prompts_data

/-- _get_therapeutic_techniques (therapy_prompts.py): a dict keyed by
TherapyApproach enum members (hence `none` keys), whose values are dicts of
technique name to template list. Declaration order follows the source. -/
def therapeutic_techniques_data : List (Option String × PyVal) :=
  [(none, .pdict
     [(some "thought_challenging", .plist
        ["I notice you mentioned '{negative_thought}'. Let's examine this together. What evidence do you have that supports this thought?",
         "That sounds like a really difficult thought to have. Can you think of any alternative ways to look at this situation?",
         "When you think '{negative_thought}', how does that make you feel? Let's explore if this thought is helpful or accurate."]),
      (some "behavioral_activation", .plist
        ["What activities used to bring you joy or satisfaction? How might we gradually reintroduce some of these?",
         "Let's think about small, manageable steps you could take today that might improve your mood, even slightly.",
         "What would a valued activity look like for you this week? Something that aligns with what matters to you?"]),
      (some "cognitive_restructuring", .plist
        ["I'm hearing some 'all-or-nothing' thinking. Life often exists in the gray areas. What might a more balanced perspective look like?",
         "You mentioned '{catastrophic_thought}'. What would you tell a close friend who had this same worry?",
         "Let's try a thought experiment. What's the most realistic outcome of this situation?"])]),
   (none, .pdict
     [(some "distress_tolerance", .plist
        ["It sounds like you're experiencing intense emotions right now. Let's try a grounding technique. Can you name 5 things you can see right now?",
         "When emotions feel overwhelming, sometimes we need to ride the wave rather than fight it. What would help you tolerate this feeling for the next few minutes?",
         "Let's try the STOP technique: Stop, Take a breath, Observe what's happening, Proceed mindfully. What do you notice when you pause?"]),
      (some "emotion_regulation", .plist
        ["What emotion are you experiencing right now? Can you rate its intensity from 1-10?",
         "Emotions are like waves - they rise, peak, and naturally fall. What do you think this emotion is trying to tell you?",
         "Let's practice opposite action. If your emotion is urging you to {action}, what would the opposite, more helpful action be?"]),
      (some "interpersonal_effectiveness", .plist
        ["It sounds like that conversation was really difficult. How did you advocate for your needs in that situation?",
         "When you think about setting boundaries, what feels most challenging for you?",
         "Let's practice the DEAR MAN technique for your next difficult conversation."])]),
   (none, .pdict
     [(some "unconditional_positive_regard", .plist
        ["I want you to know that whatever you're experiencing is valid and understandable given your circumstances.",
         "You're showing incredible strength by sharing this with me. Thank you for trusting me with your feelings.",
         "There's no judgment here. You're inherently worthy of compassion and understanding."]),
      (some "reflection", .plist
        ["It sounds like you're feeling {emotion} about {situation}. Is that right?",
         "I'm hearing that {reflection}. How does that resonate with you?",
         "What I'm picking up is {summary}. Does that capture what you're experiencing?"]),
      (some "self_actualization", .plist
        ["What does your authentic self look like? What would it mean to live more aligned with your true values?",
         "When do you feel most like yourself?",
         "What would change in your life if you fully accepted yourself as you are?"])]),
   (none, .pdict
     [(some "scaling_questions", .plist
        ["On a scale of 1-10, where 1 is the worst you've felt and 10 is the best, where are you today?",
         "If you moved up just one point on that scale, what would be different?",
         "What would need to happen for you to feel like you're at a {number} instead of a {current_number}?"]),
      (some "exception_finding", .plist
        ["Tell me about a recent time when this problem wasn't as intense. What was different about that situation?",
         "When do you feel most resilient or capable of handling challenges?",
         "What's worked for you in the past when you've faced similar difficulties?"]),
      (some "miracle_question", .plist
        ["Imagine you wake up tomorrow and this problem has been resolved. What would be the first sign that things are different?",
         "If we could wave a magic wand and your life was exactly as you wanted it, what would that look like?",
         "What would your best friend notice about you if this issue was no longer a problem?"])]),
   (none, .pdict
     [(some "present_moment", .plist
        ["Let's take a moment to come back to the present. What do you notice about your breathing right now?",
         "I notice your mind has been traveling to the past/future. What's happening in this very moment?",
         "Can you bring your attention to your body? What sensations do you notice?"]),
      (some "acceptance", .plist
        ["What would it be like to hold this feeling with compassion rather than fighting it?",
         "Sometimes the struggle against our emotions causes more suffering than the emotions themselves. What would acceptance look like here?",
         "What if you could be curious about this experience rather than judgmental?"]),
      (some "mindful_observation", .plist
        ["Let's practice observing your thoughts like clouds passing in the sky. What thoughts are you noticing right now?",
         "Can you notice this emotion without becoming the emotion? You are the observer, not the observed.",
         "What would it be like to watch your thoughts with gentle curiosity instead of harsh judgment?"])])]

def therapeutic_techniques : PyVal := .pdict therapeutic_techniques_data

/-- _get_emotional_responses (therapy_prompts.py): a dict keyed by
EmotionalState enum members (hence `none` keys), with template-list values. -/
def emotional_responses_data : List (Option String × PyVal) :=
  [(none, .plist
     ["I can hear the worry in your voice. Anxiety can feel overwhelming, but you're not alone in this.",
      "It sounds like your mind is racing with 'what if' thoughts. That's so exhausting. Let's slow down together.",
      "Anxiety often makes us feel like we need to solve everything right now. What if we just focused on this moment?"]),
   (none, .plist
     ["I hear how heavy everything feels right now. Depression can make even simple tasks feel impossible.",
      "It sounds like you're carrying a lot of pain. That takes incredible strength, even when it doesn't feel like it.",
      "When depression is present, it can feel like nothing will ever change. But feelings, even the most painful ones, are temporary."]),
   (none, .plist
     ["I can sense your frustration and anger. These are valid emotions - you have every right to feel upset.",
      "Anger often signals that something important to you has been threatened or violated. What is that for you?",
      "It sounds like you're really fired up about this. Anger can be a powerful emotion - what is it trying to tell you?"]),
   (none, .plist
     ["It sounds like you have so much on your plate right now. Feeling overwhelmed is completely understandable.",
      "When everything feels like too much, sometimes we need to break things down into smaller, manageable pieces.",
      "I hear that you're drowning in responsibilities. Let's figure out what's most urgent and what can wait."]),
   (none, .plist
     ["I can hear the hope in your voice, and that's beautiful. What's contributing to this positive shift?",
      "It sounds like you're seeing some light at the end of the tunnel. That's wonderful progress.",
      "I'm noticing more energy and optimism in how you're talking. What's changed for you?"]),
   (none, .plist
     ["I'm here to listen and support you. What would you like to talk about?",
      "How are you feeling right now?",
      "Is there something on your mind you'd like to share?"])]

def emotional_responses : PyVal := .pdict emotional_responses_data

/-- Lookup of a keyword argument by name (Python dict of kwargs; names are
unique, first hit wins). -/
def lookupKw (kw : List (String × String)) (name : String) : Option String :=
  (kw.find? (fun p => p.1 == name)).map (fun p => p.2)

/-- Model of Python str.format with named keyword arguments, over the
template subset this library uses: literal text, doubled braces as escapes,
and plain named fields such as \x7bnegative_thought\x7d (no positional
fields, attribute access, indexing or format specs appear in the data).
An empty field name would consume a positional argument and raises
IndexError when none is supplied; a missing keyword raises KeyError; an
unmatched brace raises ValueError. The scanner consumes one character per
step: norm is ordinary text, sawL/sawR follow a single brace, and field
accumulates a (necessarily nonempty, reversed) field name. -/
inductive FmtMode where
  | norm | sawL | sawR | field (acc : List Char)

def pyFmt (kw : List (String × String)) : FmtMode → List Char → Except PyErr (List Char)
  | .norm, [] => .ok []
  | .norm, c :: rest =>
      if c = '{' then pyFmt kw .sawL rest
      else if c = '}' then pyFmt kw .sawR rest
      else (pyFmt kw .norm rest).map (fun t => c :: t)
  | .sawL, [] => .error .valueError
  | .sawL, c :: rest =>
      if c = '{' then (pyFmt kw .norm rest).map (fun t => '{' :: t)
      else if c = '}' then .error .indexError
      else pyFmt kw (.field [c]) rest
  | .sawR, [] => .error .valueError
  | .sawR, c :: rest =>
      if c = '}' then (pyFmt kw .norm rest).map (fun t => '}' :: t)
      else .error .valueError
  | .field _, [] => .error .valueError
  | .field acc, c :: rest =>
      if c = '}' then
        match lookupKw kw (String.mk acc.reverse) with
        | some v => (pyFmt kw .norm rest).map (fun t => v.data ++ t)
        | none => .error .keyError
      else pyFmt kw (.field (c :: acc)) rest

/-- Model of `template.format(**kwargs)` via the scanner above. -/
def pyFormat (kw : List (String × String)) (s : String) : Except PyErr String :=
  (pyFmt kw .norm s.data).map String.mk

/-- The generic fallback returned when category/subcategory resolution
walks the nested dictionaries and finds nothing (the for-else branch). -/
def fallback_not_found : String :=
  "I'm here to support you. What would you like to talk about?"

/-- The fallback returned by the except clause of get_prompt
(AttributeError, KeyError or ValueError anywhere in the try block). -/
def fallback_format_failed : String :=
  "I'm here to listen and support you. What's on your mind?"

/-- The docstring of class TherapyPrompts, the value of its `__doc__`. -/
def therapyPromptsDoc : String :=
  "\n    Comprehensive therapeutic prompt system with evidence-based approaches\n    "

/-- The instance `__dict__` of a TherapyPrompts object: the seven data
attributes assigned by __init__, in assignment order, under string keys. -/
def instance_dict_data : List (Option String × PyVal) :=
  [(some "base_system_prompt", .pstr baseSystemPrompt),
   (some "conversation_starters", conversation_starters),
   (some "therapeutic_techniques", therapeutic_techniques),
   (some "crisis_prompts", crisis_prompts),
   (some "assessment_prompts", assessment_prompts),
   (some "emotional_responses", emotional_responses),
   (some "closing_prompts", closing_prompts)]

/-- The methods defined on class TherapyPrompts; `getattr` yields a bound
method for each — an object with neither `.values` nor `.format`. -/
def therapyPromptsMethods : List String :=
  ["__init__", "_get_base_system_prompt", "_get_conversation_starters",
   "_get_therapeutic_techniques", "_get_crisis_prompts", "_get_assessment_prompts",
   "_get_emotional_responses", "_get_closing_prompts", "get_prompt",
   "get_crisis_intervention_prompt", "get_therapeutic_response",
   "get_emotional_response", "build_contextual_prompt"]

/-- Attributes inherited from `object` (plus `__class__` and the class's
`__weakref__` slot) whose values — builtin methods, the class object,
None — likewise have neither `.values` nor `.format`. -/
def objectDunderNames : List String :=
  ["__class__", "__new__", "__repr__", "__str__", "__hash__", "__eq__", "__ne__",
   "__lt__", "__le__", "__gt__", "__ge__", "__getattribute__", "__setattr__",
   "__delattr__", "__dir__", "__sizeof__", "__reduce__", "__reduce_ex__",
   "__format__", "__init_subclass__", "__subclasshook__", "__weakref__"]

/-- `getattr(self, category)` on a TherapyPrompts instance: the seven data
attributes, the instance `__dict__` itself, the class docstring `__doc__`,
the class's methods, and the inherited object attributes listed above; any
other name raises AttributeError (`none`). A caveat on the residual
bucket: CPython also exposes a few environment-dependent names not listed
here — notably `__module__`, whose string value depends on the import path,
and any dunders a particular interpreter version adds. For those names the
running program returns a nonempty string as well (a brace-free module
name, or the format fallback via the method path), so the nonempty-result
property proved below also holds for them in the real program, but the
model makes no claim about which exact string the residual bucket yields
and the theorems below assert the format fallback only for the concrete
non-attribute name they mention. -/
def attrLookup (category : String) : Option PyVal :=
  if category = "base_system_prompt" then some (.pstr baseSystemPrompt)
  else if category = "conversation_starters" then some conversation_starters
  else if category = "therapeutic_techniques" then some therapeutic_techniques
  else if category = "crisis_prompts" then some crisis_prompts
  else if category = "assessment_prompts" then some assessment_prompts
  else if category = "emotional_responses" then some emotional_responses
  else if category = "closing_prompts" then some closing_prompts
  else if category = "__dict__" then some (.pdict instance_dict_data)
  else if category = "__doc__" then some (.pstr therapyPromptsDoc)
  else if (therapyPromptsMethods ++ objectDunderNames).contains category then some .pobj
  else none

/-- Python membership test `subcategory in prompts_dict`. -/
def dictHasKey (d : List (Option String × PyVal)) (sub : String) : Bool :=
  d.any (fun kv => kv.1 == some sub)

/-- Python indexing `prompts_dict[subcategory]` (first binding wins). -/
def dictGet (d : List (Option String × PyVal)) (sub : String) : Option PyVal :=
  (d.find? (fun kv => kv.1 == some sub)).map (fun kv => kv.2)

/-- The subcategory-resolution block of get_prompt: direct key hit, else a
scan of the values for a nested dict holding the subcategory (first in
declaration order), else the for-else early return of the not-found
fallback (`.inl ()`); calling .values() on a non-dict raises AttributeError. -/
def resolveSub (pv : PyVal) (sub : String) : Except PyErr (Sum Unit PyVal) :=
  match pv with
  | .pdict d =>
    if dictHasKey d sub then
      match dictGet d sub with
      | some v => .ok (.inr v)
      | none => .error .keyError
    else
      match (d.map (fun kv => kv.2)).find? (fun v => match v with
          | PyVal.pdict d2 => dictHasKey d2 sub
          | _ => false) with
      | some (PyVal.pdict d2) =>
          match dictGet d2 sub with
          | some v => .ok (.inr v)
          | none => .error .keyError
      | _ => .ok (.inl ())
  | _ => .error .attributeError

/-- The selection-and-formatting tail of get_prompt: random.choice over a
list (IndexError on an empty one), then .format(**kwargs); calling .format
on a dict, a method or another non-string object raises AttributeError.
`r` models the random source. -/
def chooseAndFormat (r : Nat) (kw : List (String × String)) (pv : PyVal) :
    Except PyErr String :=
  match pv with
  | .plist l =>
      match l.get? (r % l.length) with
      | some t => pyFormat kw t
      | none => .error .indexError
  | .pstr s => pyFormat kw s
  | .pdict _ => .error .attributeError
  | .pobj => .error .attributeError

/-- The try block of TherapyPrompts.get_prompt. A `some ""` subcategory is
falsy in Python (`if subcategory:`) and is treated like none. -/
def get_prompt_body (r : Nat) (category : String) (subcategory : Option String)
    (kw : List (String × String)) : Except PyErr String :=
  if category = "base_system" then .ok baseSystemPrompt
  else
    match attrLookup category with
    | none => .error .attributeError
    | some pv =>
      match subcategory with
      | some sub =>
          if sub = "" then chooseAndFormat r kw pv
          else
            match resolveSub pv sub with
            | .ok (.inl _) => .ok fallback_not_found
            | .ok (.inr found) => chooseAndFormat r kw found
            | .error e => .error e
      | none => chooseAndFormat r kw pv

/-- The except clause of get_prompt: AttributeError, KeyError and
ValueError (and only those) become the formatting fallback; any other
exception (IndexError) propagates. -/
def catchPy (x : Except PyErr String) : Except PyErr String :=
  match x with
  | .ok s => .ok s
  | .error .attributeError => .ok fallback_format_failed
  | .error .keyError => .ok fallback_format_failed
  | .error .valueError => .ok fallback_format_failed
  | .error .indexError => .error .indexError

/-- TherapyPrompts.get_prompt: the try block wrapped in the except clause. -/
def get_prompt (r : Nat) (category : String) (subcategory : Option String)
    (kw : List (String × String)) : Except PyErr String :=
  catchPy (get_prompt_body r category subcategory kw)

example : get_prompt 0 "conversation_starters" (some "first_session") [] =
    .ok "Hello, I'm Alex, your AI mental health counselor. I'm here to provide a safe, supportive space for you to share what's on your mind. What would you like to talk about today?" := by
  decide
example : get_prompt 0 "no_such_category" (some "x") [] = .ok fallback_format_failed := by
  decide
example : get_prompt 0 "conversation_starters" (some "nope") [] = .ok fallback_not_found := by
  decide
example : get_prompt 2 "therapeutic_techniques" (some "reflection") [] = .ok fallback_format_failed := by
  decide
example : get_prompt 1 "therapeutic_techniques" (some "scaling_questions") [] =
    .ok "If you moved up just one point on that scale, what would be different?" := by
  decide
example : get_prompt 0 "__dict__" (some "first_session") [] =
    .ok "Hello, I'm Alex, your AI mental health counselor. I'm here to provide a safe, supportive space for you to share what's on your mind. What would you like to talk about today?" := rfl
example : get_prompt 0 "__doc__" none [] = .ok therapyPromptsDoc := by
  decide
example : get_prompt 0 "get_prompt" (some "x") [] = .ok fallback_format_failed := by
  decide

/-- The approach_guidance table local to build_contextual_prompt
(therapy_prompts.py). It is total over the TherapyApproach enumeration, so
the Python indexing `approach_guidance[therapy_approach]` cannot fail. -/
def approach_guidance : TherapyApproach → String
  | .cbt => "Focus on identifying and challenging negative thought patterns. Use cognitive restructuring techniques."
  | .dbt => "Emphasize distress tolerance and emotion regulation skills. Validate emotions while teaching coping strategies."
  | .humanistic => "Provide unconditional positive regard and facilitate self-discovery through reflection."
  | .solutionFocused => "Focus on strengths, resources, and what's working. Ask scaling and exception-finding questions."
  | .mindfulness => "Encourage present-moment awareness and acceptance. Use grounding techniques."
  | .crisisIntervention => "Prioritize immediate safety. Assess risk and connect with professional resources."

/-- The crisis banner line, byte-for-byte as it appears in the source file
(the leading and trailing characters are the mojibake sequence stored there). -/
def crisisBanner : String :=
  "ðŸš¨ CRISIS INDICATORS DETECTED - PRIORITIZE SAFETY ASSESSMENT ðŸš¨\n\n"

/-- TherapyPrompts.build_contextual_prompt (therapy_prompts.py). The
session_history parameter defaults to None in Python and the live call
site never passes it; an empty list models the falsy default. -/
def build_contextual_prompt (base_context : String) (emotional_state : EmotionalState)
    (therapy_approach : TherapyApproach) (session_history : List String)
    (crisis_indicators : Bool) : String :=
  let prompt := baseSystemPrompt ++ "\n\n"
  let prompt := if crisis_indicators then prompt ++ crisisBanner else prompt
  let prompt := prompt ++ "CURRENT EMOTIONAL STATE: " ++ emotional_state.value ++ "\n"
  let prompt := prompt ++ "RECOMMENDED THERAPEUTIC APPROACH: " ++ therapy_approach.value ++ "\n\n"
  let prompt :=
    if session_history.isEmpty then prompt
    else
      (session_history.drop (session_history.length - 3)).foldl
        (fun acc s => acc ++ "- " ++ s ++ "\n") (prompt ++ "PREVIOUS SESSION CONTEXT:\n")
      ++ "\n"
  let prompt := prompt ++ "CURRENT CONVERSATION CONTEXT:\n" ++ base_context ++ "\n\n"
  let prompt := prompt ++ "THERAPEUTIC FOCUS: " ++ approach_guidance therapy_approach ++ "\n\n"
  prompt ++ "Respond with empathy, professionalism, and appropriate therapeutic techniques. Keep responses conversational and supportive."

/-- One stored conversation entry (the dict appended by process_message). -/
structure ConversationEntry where
  timestamp : Nat
  user_message : String
  ai_response : String
  emotional_state : String
  therapy_approach : String
  crisis_level : String
  deriving DecidableEq, Repr

/-- self.session_context of ChatService. The initial dict lacks the user_id
key; `none` models both the missing key and an explicit None. -/
structure SessionContext where
  session_start : Nat
  emotional_state : EmotionalState
  therapy_approach : TherapyApproach
  crisis_detected : Bool
  session_summary : String
  user_id : Option String
  deriving DecidableEq, Repr

/-- The mutable state of a ChatService instance: the conversation history
list and the session-context record. -/
structure ChatState where
  conversation_history : List ConversationEntry
  session_context : SessionContext
  deriving DecidableEq, Repr

/-- ChatService.__init__ state (timestamps are Nat parameters). -/
def initChatState (now : Nat) : ChatState :=
  ⟨[], ⟨now, .neutral, .cbt, false, "", none⟩⟩

/-- _get_crisis_resources (chat_service.py), the fixed literal payload. -/
structure CrisisResources where
  emergency_contacts : List (String × String)
  immediate_actions : List String
  safety_plan : String
  deriving DecidableEq, Repr

def get_crisis_resources : CrisisResources :=
  { emergency_contacts :=
      [("national_suicide_prevention", "988"),
       ("crisis_text_line", "Text HOME to 741741"),
       ("emergency_services", "911")],
    immediate_actions :=
      ["Remove any means of self-harm from your environment",
       "Contact a trusted friend or family member",
       "Go to the nearest emergency room if you're in immediate danger",
       "Call 988 for immediate crisis support"],
    safety_plan := "Consider creating a safety plan with a mental health professional" }

/-- The dict returned by process_message. Optional fields model key
presence: the happy path populates the first five and omits error; the
degraded path populates only message, crisis_level and error. -/
structure ChatResponse where
  message : String
  emotional_state : Option String
  therapy_approach : Option String
  crisis_level : String
  session_id : Option String
  crisis_resources : Option CrisisResources
  error : Option String
  deriving DecidableEq, Repr

/-- The dict returned by start_session. -/
structure StartSessionResponse where
  message : String
  session_id : String
  emotional_state : String
  therapy_approach : String
  deriving DecidableEq, Repr

/-- ChatService.start_session: replaces session_context with a fresh record
and returns the welcome payload. `r` models the random template pick inside
get_prompt; the error branch is unreachable with the shipped prompt data. -/
def start_session (st : ChatState) (now : Nat) (user_id : Option String) (r : Nat) :
    ChatState × StartSessionResponse :=
  let ctx : SessionContext :=
    { session_start := now, emotional_state := .neutral, therapy_approach := .cbt,
      crisis_detected := false, session_summary := "", user_id := user_id }
  let welcome_message :=
    match get_prompt r "conversation_starters" (some "first_session") [] with
    | .ok s => s
    | .error _ => ""
  (⟨st.conversation_history, ctx⟩,
   { message := welcome_message, session_id := toString now,
     emotional_state := ctx.emotional_state.value,
     therapy_approach := ctx.therapy_approach.value })

/-- The recent-context accumulation of _build_therapeutic_prompt: the last
3 exchanges rendered as User/Alex pairs (empty when the history is empty). -/
def recentContext (history : List ConversationEntry) : String :=
  if history.isEmpty then ""
  else
    (history.drop (history.length - 3)).foldl
      (fun acc e => acc ++ "User: " ++ e.user_message ++ "\n"
                        ++ "Alex: " ++ e.ai_response ++ "\n\n") ""

/-- ChatService._build_therapeutic_prompt (chat_service.py). -/
def build_therapeutic_prompt (history : List ConversationEntry) (user_message : String)
    (emotional_state : EmotionalState) (therapy_approach : TherapyApproach)
    (crisis_detected : Bool) : String :=
  let current_context := recentContext history ++ "User: " ++ user_message
  build_contextual_prompt current_context emotional_state therapy_approach [] crisis_detected

/-- Steps a-d of process_message up to the prompt handed to generation,
factored out so theorems can name the prompt value. -/
def processPrompt (st : ChatState) (user_message : String) : String :=
  let crisis_level := detect_crisis_level user_message
  let crisis_detected := crisis_level == "high" || crisis_level == "medium"
  let emotional_state := detectEmotionalState user_message
  let therapy_approach := chooseTherapyApproach user_message emotional_state crisis_detected
  build_therapeutic_prompt st.conversation_history user_message emotional_state
    therapy_approach crisis_detected

/-- The conversation entry process_message appends on success. -/
def processEntry (user_message : String) (now : Nat) (ai_response : String) :
    ConversationEntry :=
  let crisis_level := detect_crisis_level user_message
  let crisis_detected := crisis_level == "high" || crisis_level == "medium"
  let emotional_state := detectEmotionalState user_message
  let therapy_approach := chooseTherapyApproach user_message emotional_state crisis_detected
  ⟨now, user_message, ai_response, emotional_state.value, therapy_approach.value, crisis_level⟩

/-- The fixed degraded-path message of process_message. -/
def degraded_message : String :=
  "I'm having trouble processing your message right now. Please try again, and if you're in crisis, please contact a crisis helpline immediately."

/-- The degraded response built by the except branch of process_message
(only the message, error and crisis_level keys are populated). -/
def degradedResponse (e : String) : ChatResponse :=
  { message := degraded_message, emotional_state := none, therapy_approach := none,
    crisis_level := "unknown", session_id := none, crisis_resources := none,
    error := some e }

/-- ChatService.process_message. The external generation backend
(_generate_response plus everything the requests call can raise past its
own RequestException handler) is modelled by the oracle `gen`: `.ok text`
is a generated reply, `.error e` is any exception raised inside the try
block, carrying str(e). The session-context updates of steps a-c happen
before the fallible call and therefore persist on the degraded path, as in
the source; the history append and response assembly happen after it. -/
def process_message (st : ChatState) (user_message : String) (now : Nat)
    (gen : String → Except String String) : ChatState × ChatResponse :=
  let crisis_level := detect_crisis_level user_message
  let crisis_detected := crisis_level == "high" || crisis_level == "medium"
  let emotional_state := detectEmotionalState user_message
  let therapy_approach := chooseTherapyApproach user_message emotional_state crisis_detected
  let ctx : SessionContext :=
    { st.session_context with
        crisis_detected := crisis_detected
        emotional_state := emotional_state
        therapy_approach := therapy_approach }
  match gen (processPrompt st user_message) with
  | .error e => (⟨st.conversation_history, ctx⟩, degradedResponse e)
  | .ok ai_response =>
      let entry := processEntry user_message now ai_response
      let response : ChatResponse :=
        { message := ai_response,
          emotional_state := some emotional_state.value,
          therapy_approach := some therapy_approach.value,
          crisis_level := crisis_level,
          session_id := some (toString ctx.session_start),
          crisis_resources :=
            if crisis_level == "high" then some get_crisis_resources else none,
          error := none }
      (⟨st.conversation_history ++ [entry], ctx⟩, response)

/-- Per-emotion tallies in insertion order: the emotional_counts dict built
by _generate_session_summary and _get_emotional_state_summary. -/
def bumpCount : List (String × Nat) → String → List (String × Nat)
  | [], k => [(k, 1)]
  | (k0, n) :: rest, k =>
      if k0 = k then (k0, n + 1) :: rest else (k0, n) :: bumpCount rest k

def tallyEmotions (history : List ConversationEntry) : List (String × Nat) :=
  history.foldl (fun acc e => bumpCount acc e.emotional_state) []

/-- Python max(items, key=count): the first item holding the maximal count
(max keeps the current best unless a later key is strictly greater). -/
def maxByCount : List (String × Nat) → Option (String × Nat)
  | [] => none
  | x :: rest => some (rest.foldl (fun best y => if y.2 > best.2 then y else best) x)

/-- ChatService._generate_session_summary. -/
def generate_session_summary (history : List ConversationEntry) : String :=
  if history.isEmpty then "Session ended without any conversation."
  else
    let emotional_counts := tallyEmotions history
    let primary_emotion :=
      match maxByCount emotional_counts with
      | some p => p.1
      | none => "neutral"
    let crisis_count := (history.filter (fun e => e.crisis_level ≠ "none")).length
    let summary := "Session focused on " ++ primary_emotion ++ " experiences. "
    let summary :=
      if crisis_count > 0 then
        summary ++ "Crisis indicators were detected " ++ toString crisis_count ++ " times. "
      else summary
    summary ++ "Total of " ++ toString history.length ++ " exchanges occurred."

/-- The dict returned by end_session; the duration string is modelled as
the elapsed Nat (now - session_start). -/
structure EndSessionResponse where
  message : String
  session_summary : String
  session_duration : Nat
  total_exchanges : Nat
  emotional_states_observed : List (String × Nat)
  deriving DecidableEq, Repr

/-- ChatService.end_session: computes the summary payload; the state is not
modified (the history in particular is left in place). -/
def end_session (st : ChatState) (now : Nat) (r : Nat) :
    ChatState × EndSessionResponse :=
  let session_summary := generate_session_summary st.conversation_history
  let closing_message :=
    match get_prompt r "closing_prompts" (some "session_summary") [] with
    | .ok s => s
    | .error _ => ""
  (st, { message := closing_message, session_summary := session_summary,
         session_duration := now - st.session_context.session_start,
         total_exchanges := st.conversation_history.length,
         emotional_states_observed := tallyEmotions st.conversation_history })

/-- The dict returned by get_session_stats. -/
structure SessionStats where
  session_duration : Nat
  total_exchanges : Nat
  current_emotional_state : String
  current_therapy_approach : String
  crisis_detected : Bool
  emotional_states_observed : List (String × Nat)
  deriving DecidableEq, Repr

/-- ChatService.get_session_stats: read-only view of the current state. -/
def get_session_stats (st : ChatState) (now : Nat) : ChatState × SessionStats :=
  (st, { session_duration := now - st.session_context.session_start,
         total_exchanges := st.conversation_history.length,
         current_emotional_state := st.session_context.emotional_state.value,
         current_therapy_approach := st.session_context.therapy_approach.value,
         crisis_detected := st.session_context.crisis_detected,
         emotional_states_observed := tallyEmotions st.conversation_history })

/-- A template whose first character is ordinary text: every successful
format of it starts with that character, hence is nonempty. -/
def headSafe (s : String) : Bool :=
  match s.data with
  | [] => false
  | c :: _ => !(c == '{') && !(c == '}')

/-- Scanner modes of the IndexError check (field names need no content). -/
inductive ChkMode where
  | norm | sawL | sawR | field

/-- Syntactic check mirroring pyFmt that a template can never raise
IndexError (no empty replacement field occurs), whatever the kwargs: the
only IndexError source is a close brace directly after an open brace, and
after a field closes over an unknown name the scan stops with KeyError, so
the remainder is conservatively required safe as well. -/
def noIdxAux : ChkMode → List Char → Bool
  | .norm, [] => true
  | .norm, c :: rest =>
      if c = '{' then noIdxAux .sawL rest
      else if c = '}' then noIdxAux .sawR rest
      else noIdxAux .norm rest
  | .sawL, [] => true
  | .sawL, c :: rest =>
      if c = '{' then noIdxAux .norm rest
      else if c = '}' then false
      else noIdxAux .field rest
  | .sawR, [] => true
  | .sawR, c :: rest =>
      if c = '}' then noIdxAux .norm rest
      else true
  | .field, [] => true
  | .field, c :: rest =>
      if c = '}' then noIdxAux .norm rest
      else noIdxAux .field rest

def noIndexErr (s : String) : Bool := noIdxAux .norm s.data

/-- The checker mode corresponding to a scanner mode. -/
def modeOf : FmtMode → ChkMode
  | .norm => .norm
  | .sawL => .sawL
  | .sawR => .sawR
  | .field _ => .field

/-- A template that formats to a nonempty string whenever formatting
succeeds, and never raises an uncaught exception. -/
def safeStr (s : String) : Bool := headSafe s && noIndexErr s

/-- A resolved Python value on which the selection-and-formatting tail of
get_prompt yields, after the except clause, a nonempty string. -/
def safeVal : PyVal → Bool
  | .pstr s => safeStr s
  | .plist l => !l.isEmpty && l.all safeStr
  | .pdict _ => true
  | .pobj => true

/-- For dict values: every nested value is itself safe to select from. -/
def innerSafe : PyVal → Bool
  | .pdict d2 => d2.all (fun kv => safeVal kv.2)
  | _ => true

/-- A generation oracle that always succeeds with a fixed reply (a stand-in
for a healthy Ollama backend in concrete runs). -/
def genOk : String → Except String String := fun _ => .ok "I hear you."

/-- A generation oracle that always raises (a stand-in for a fault inside
the try block of process_message). -/
def genErr : String → Except String String := fun _ => .error "boom"

/-- The User/Alex rendering of one stored exchange, as accumulated by
_build_therapeutic_prompt, named for use in theorem statements. -/
def renderTurn (e : ConversationEntry) : String :=
  "User: " ++ e.user_message ++ "\n" ++ "Alex: " ++ e.ai_response ++ "\n\n"

/-- Substring as a proposition: s occurs contiguously inside t. -/
def IsSubstrOf (s t : String) : Prop := ∃ x y, t = x ++ (s ++ y)

/-! ## Helper lemmas -/

theorem isSubstrOf_append_self (x s : String) : IsSubstrOf s (x ++ s) :=
  ⟨x, "", by rw [String.append_empty]⟩

theorem isSubstrOf_appendL {s t : String} (u : String) (h : IsSubstrOf s t) :
    IsSubstrOf s (t ++ u) := by
  obtain ⟨x, y, rfl⟩ := h
  exact ⟨x, y ++ u, by rw [String.append_assoc, String.append_assoc]⟩

theorem isSubstrOf_appendR {s t : String} (u : String) (h : IsSubstrOf s t) :
    IsSubstrOf s (u ++ t) := by
  obtain ⟨x, y, rfl⟩ := h
  exact ⟨u ++ x, y, by rw [String.append_assoc]⟩

/-! ## C1: crisis classification -/

/-- C1: detect_crisis_level case-folds its input and returns "high" exactly
when a high-risk or self-harm phrase occurs as a substring, otherwise
"medium" when a medium-risk phrase occurs, otherwise "none"; the result is
always one of these three labels. -/
theorem claim_C1 (text : String) :
    detect_crisis_level text = spec_classify_crisis text ∧
    (detect_crisis_level text = "high" ∨ detect_crisis_level text = "medium" ∨
     detect_crisis_level text = "none") := by
  cases h1 : CRISIS_KEYWORDS_high_risk.any (fun k => strIn k (pyLower text)) <;>
  cases h2 : CRISIS_KEYWORDS_self_harm.any (fun k => strIn k (pyLower text)) <;>
  cases h3 : CRISIS_KEYWORDS_medium_risk.any (fun k => strIn k (pyLower text)) <;>
    simp [detect_crisis_level, spec_classify_crisis, List.any_append, h1, h2, h3]

/-! ## C3: approach selection -/

/-- C3: _choose_therapy_approach ignores the message text (it is a pure
function of the crisis flag and emotional state), maps any crisis to
crisis_intervention, and otherwise follows the fixed table with cbt as the
default for neutral, hopeful and crisis states. -/
theorem claim_C3 :
    (∀ (m1 m2 : String) (es : EmotionalState) (c : Bool),
        chooseTherapyApproach m1 es c = chooseTherapyApproach m2 es c) ∧
    (∀ (m : String) (es : EmotionalState),
        chooseTherapyApproach m es true = .crisisIntervention) ∧
    (∀ m : String,
        chooseTherapyApproach m .anxious false = .cbt ∧
        chooseTherapyApproach m .depressed false = .humanistic ∧
        chooseTherapyApproach m .overwhelmed false = .solutionFocused ∧
        chooseTherapyApproach m .angry false = .dbt ∧
        chooseTherapyApproach m .neutral false = .cbt ∧
        chooseTherapyApproach m .hopeful false = .cbt ∧
        chooseTherapyApproach m .crisis false = .cbt) :=
  ⟨fun _ _ _ _ => rfl, fun _ _ => rfl,
   fun _ => ⟨rfl, rfl, rfl, rfl, rfl, rfl, rfl⟩⟩

/-! ## C8: emotion classification -/

/-- C8: _detect_emotional_state case-folds the input and scans the keyword
groups in the fixed order anxious, depressed, angry, overwhelmed, hopeful;
the first group with a matching substring wins and neutral is returned when
none matches — exactly the ordered first-match semantics, producing one
label per input. -/
theorem claim_C8 (message : String) :
    detectEmotionalState message = spec_classify_emotion message := by
  cases h1 : anxiety_keywords.any (fun k => strIn k (pyLower message)) <;>
  cases h2 : depression_keywords.any (fun k => strIn k (pyLower message)) <;>
  cases h3 : anger_keywords.any (fun k => strIn k (pyLower message)) <;>
  cases h4 : overwhelmed_keywords.any (fun k => strIn k (pyLower message)) <;>
  cases h5 : hopeful_keywords.any (fun k => strIn k (pyLower message)) <;>
    simp [detectEmotionalState, spec_classify_emotion, spec_emotion_groups,
      List.find?, h1, h2, h3, h4, h5]

/-! ## C6: start_session resets -/

/-- C6 counterexample: after one processed message, a start_session call
leaves the previously recorded turn in the conversation history, so the
history is not empty afterwards, contradicting the claim that no turns
recorded before a start() call remain visible. -/
theorem claim_C6_counterexample :
    ((start_session (process_message (initChatState 0) "hello" 1 genOk).1
        2 none 0).1).conversation_history ≠ [] := by
  decide

/-- C6 (amended): start_session always resets the session context to a
fresh state — neutral emotional state, cbt approach, crisis flag cleared,
new start time, empty summary — regardless of what was processed before,
but it does not clear the conversation history: previously recorded turns
remain in the history unchanged. -/
theorem claim_C6 (st : ChatState) (now : Nat) (uid : Option String) (r : Nat) :
    (start_session st now uid r).1.session_context.emotional_state = .neutral ∧
    (start_session st now uid r).1.session_context.therapy_approach = .cbt ∧
    (start_session st now uid r).1.session_context.crisis_detected = false ∧
    (start_session st now uid r).1.session_context.session_start = now ∧
    (start_session st now uid r).1.session_context.session_summary = "" ∧
    (start_session st now uid r).1.session_context.user_id = uid ∧
    (start_session st now uid r).1.conversation_history = st.conversation_history :=
  ⟨rfl, rfl, rfl, rfl, rfl, rfl, rfl⟩

/-! ## C10: the history is append-only -/

/-- C10: the conversation history is append-only — start_session,
end_session and get_session_stats leave it (and for the latter two the
whole state) untouched, and process_message extends it by exactly one entry
when generation succeeds and by nothing when the try block fails before the
append; it therefore persists, monotonically growing, across start_session
and end_session calls on the same instance. -/
theorem claim_C10 :
    (∀ (st : ChatState) (now : Nat) (uid : Option String) (r : Nat),
       (start_session st now uid r).1.conversation_history = st.conversation_history) ∧
    (∀ (st : ChatState) (now r : Nat), (end_session st now r).1 = st) ∧
    (∀ (st : ChatState) (now : Nat), (get_session_stats st now).1 = st) ∧
    (∀ (st : ChatState) (msg : String) (now : Nat) (gen : String → Except String String),
       (process_message st msg now gen).1.conversation_history =
         st.conversation_history ++
           (match gen (processPrompt st msg) with
            | .ok ai => [processEntry msg now ai]
            | .error _ => [])) := by
  refine ⟨fun _ _ _ _ => rfl, fun _ _ _ => rfl, fun _ _ => rfl, fun st msg now gen => ?_⟩
  cases h : gen (processPrompt st msg) <;> simp [process_message, h]

/-! ## C4: process_message degrades instead of raising -/

/-- C4: whenever the fallible part of process_message raises (modelled by
the generation oracle returning an error), the caller still receives a
structured response: the fixed trouble message, crisis_level "unknown", and
the error detail attached. -/
theorem claim_C4 (st : ChatState) (msg : String) (now : Nat)
    (gen : String → Except String String) (e : String)
    (h : gen (processPrompt st msg) = .error e) :
    (process_message st msg now gen).2 = degradedResponse e ∧
    (process_message st msg now gen).2.crisis_level = "unknown" ∧
    (process_message st msg now gen).2.message = degraded_message ∧
    (process_message st msg now gen).2.error = some e := by
  simp [process_message, h, degradedResponse]

/-- C4 witness: a concrete failing generation exercises the degraded path. -/
theorem claim_C4_witness :
    (process_message (initChatState 0) "hi" 1 genErr).2 = degradedResponse "boom" ∧
    (process_message (initChatState 0) "hi" 1 genErr).2.crisis_level = "unknown" ∧
    (process_message (initChatState 0) "hi" 1 genErr).2.message = degraded_message ∧
    (process_message (initChatState 0) "hi" 1 genErr).2.error = some "boom" :=
  claim_C4 (initChatState 0) "hi" 1 genErr "boom" rfl

/-! ## C2: response shape and crisis resources -/

/-- C2: on the non-degraded path the response carries the message,
emotional_state, therapy_approach, crisis_level and session_id keys, and a
crisis_resources payload exactly when crisis_level is "high"; the payload's
hotline entry is "988". In particular the input "I want to kill myself"
produces crisis_level "high", approach crisis_intervention, and the
resources payload. -/
theorem claim_C2 :
    (∀ (st : ChatState) (msg : String) (now : Nat)
        (gen : String → Except String String) (ai : String),
      gen (processPrompt st msg) = .ok ai →
      (process_message st msg now gen).2.message = ai ∧
      (process_message st msg now gen).2.emotional_state =
        some (detectEmotionalState msg).value ∧
      (process_message st msg now gen).2.therapy_approach =
        some (chooseTherapyApproach msg (detectEmotionalState msg)
          (detect_crisis_level msg == "high" || detect_crisis_level msg == "medium")).value ∧
      (process_message st msg now gen).2.crisis_level = detect_crisis_level msg ∧
      (process_message st msg now gen).2.session_id =
        some (toString st.session_context.session_start) ∧
      ((process_message st msg now gen).2.crisis_resources.isSome ↔
        (process_message st msg now gen).2.crisis_level = "high") ∧
      ((process_message st msg now gen).2.crisis_level = "high" →
        (process_message st msg now gen).2.crisis_resources = some get_crisis_resources) ∧
      get_crisis_resources.emergency_contacts.lookup "national_suicide_prevention" =
        some "988") ∧
    ((process_message (initChatState 0) "I want to kill myself" 1 genOk).2.crisis_level
        = "high" ∧
     (process_message (initChatState 0) "I want to kill myself" 1 genOk).2.therapy_approach
        = some "crisis_intervention" ∧
     (process_message (initChatState 0) "I want to kill myself" 1 genOk).2.crisis_resources
        = some get_crisis_resources ∧
     get_crisis_resources.emergency_contacts.lookup "national_suicide_prevention"
        = some "988") := by
  constructor
  · intro st msg now gen ai h
    simp only [process_message, h]
    refine ⟨trivial, trivial, trivial, trivial, trivial, ?_, ?_, by decide⟩
    · by_cases hc : detect_crisis_level msg = "high" <;> simp [hc]
    · intro hc; simp [hc]
  · exact ⟨by decide, by decide, by decide, by decide⟩

/-- C2 witness: the general clause applied to the crisis scenario input
with an always-succeeding generation oracle. -/
theorem claim_C2_witness :
    (process_message (initChatState 0) "I want to kill myself" 1 genOk).2.message
      = "I hear you." :=
  (claim_C2.1 (initChatState 0) "I want to kill myself" 1 genOk "I hear you." rfl).1

/-! ## C7: history windowing -/

/-- C7: when the history holds more than 3 turns, the prompt is built from
exactly the 3 most recent ones, rendered in chronological order, and the
earlier turns do not influence the prompt at all. -/
theorem claim_C7 (pre : List ConversationEntry) (a b c : ConversationEntry)
    (user_message : String) (es : EmotionalState) (ta : TherapyApproach)
    (cr : Bool) (hpre : pre ≠ []) :
    3 < (pre ++ [a, b, c]).length ∧
    recentContext (pre ++ [a, b, c]) = renderTurn a ++ renderTurn b ++ renderTurn c ∧
    build_therapeutic_prompt (pre ++ [a, b, c]) user_message es ta cr =
      build_therapeutic_prompt [a, b, c] user_message es ta cr := by
  have hdrop : (pre ++ [a, b, c]).drop ((pre ++ [a, b, c]).length - 3) = [a, b, c] := by
    have hlen : (pre ++ [a, b, c]).length - 3 = pre.length := by
      simp [List.length_append]
    rw [hlen, List.drop_left]
  have hne : (pre ++ [a, b, c]).isEmpty = false := by
    cases pre <;> simp
  have h2 : recentContext (pre ++ [a, b, c]) =
      renderTurn a ++ renderTurn b ++ renderTurn c := by
    simp only [recentContext, hne, Bool.false_eq_true, if_false, hdrop,
      List.foldl, renderTurn, String.append_assoc, String.empty_append]
  have h3 : recentContext [a, b, c] =
      renderTurn a ++ renderTurn b ++ renderTurn c := by
    simp only [recentContext, List.isEmpty_cons, Bool.false_eq_true, if_false]
    rw [show List.drop (([a, b, c] : List ConversationEntry).length - 3) [a, b, c]
          = [a, b, c] from rfl]
    simp only [List.foldl, renderTurn, String.append_assoc, String.empty_append]
  refine ⟨?_, h2, ?_⟩
  · have : 0 < pre.length := List.length_pos.mpr hpre
    simp [List.length_append]
    omega
  · simp only [build_therapeutic_prompt, h2, h3]

/-! ## C9: the composed prompt embeds text, emotion and approach -/

/-- C9: the prompt composed for a message always contains the literal user
text, the literal emotional-state enum value, and the literal
therapy-approach enum value as substrings. -/
theorem claim_C9 (history : List ConversationEntry) (user_message : String)
    (es : EmotionalState) (ta : TherapyApproach) (cr : Bool) :
    IsSubstrOf user_message (build_therapeutic_prompt history user_message es ta cr) ∧
    IsSubstrOf es.value (build_therapeutic_prompt history user_message es ta cr) ∧
    IsSubstrOf ta.value (build_therapeutic_prompt history user_message es ta cr) := by
  simp only [build_therapeutic_prompt, build_contextual_prompt, List.isEmpty_nil, if_true]
  cases cr <;>
    refine ⟨?_, ?_, ?_⟩ <;>
    simp only [Bool.false_eq_true, if_false, if_true]
  · apply isSubstrOf_appendL
    apply isSubstrOf_appendL
    apply isSubstrOf_appendL
    apply isSubstrOf_appendL
    apply isSubstrOf_appendL
    apply isSubstrOf_appendR
    exact isSubstrOf_append_self _ _
  · repeat first
      | exact isSubstrOf_append_self _ _
      | apply isSubstrOf_appendL
  · repeat first
      | exact isSubstrOf_append_self _ _
      | apply isSubstrOf_appendL
  · apply isSubstrOf_appendL
    apply isSubstrOf_appendL
    apply isSubstrOf_appendL
    apply isSubstrOf_appendL
    apply isSubstrOf_appendL
    apply isSubstrOf_appendR
    exact isSubstrOf_append_self _ _
  · repeat first
      | exact isSubstrOf_append_self _ _
      | apply isSubstrOf_appendL
  · repeat first
      | exact isSubstrOf_append_self _ _
      | apply isSubstrOf_appendL

/-! ## C5: get_prompt never raises and falls back in two tiers -/

theorem exceptMap_ne_error {α β : Type} (f : α → β) (x : Except PyErr α) (e : PyErr)
    (h : ¬ x = .error e) : ¬ x.map f = .error e := by
  cases x <;> simp_all [Except.map]

theorem fmt_no_index (kw : List (String × String)) :
    ∀ (m : FmtMode) (l : List Char),
    noIdxAux (modeOf m) l = true →
    pyFmt kw m l ≠ .error .indexError := by
  intro m l
  induction m, l using pyFmt.induct kw <;>
    simp_all [pyFmt, noIdxAux, modeOf] <;>
    (intro hn; apply exceptMap_ne_error; simp_all)

theorem fmt_head (kw : List (String × String)) (c : Char) (rest out : List Char)
    (h1 : ¬ c = '{') (h2 : ¬ c = '}') (h : pyFmt kw .norm (c :: rest) = .ok out) :
    out ≠ [] := by
  simp only [pyFmt, if_neg h1, if_neg h2] at h
  rcases hx : pyFmt kw FmtMode.norm rest with l | e <;> rw [hx] at h <;>
    simp [Except.map] at h
  simp [← h]

theorem pyFormat_safe (t : String) (ht : safeStr t = true) (kw : List (String × String)) :
    ∃ s, catchPy (pyFormat kw t) = .ok s ∧ s ≠ "" := by
  obtain ⟨hh, hn⟩ := (Bool.and_eq_true _ _).mp ht
  rcases hd : t.data with _ | ⟨c, rest⟩
  · simp only [headSafe, hd] at hh
    exact absurd hh (by simp)
  · simp only [headSafe, hd, Bool.and_eq_true, Bool.not_eq_eq_eq_not, Bool.not_true,
      beq_eq_false_iff_ne, ne_eq] at hh
    obtain ⟨hc1, hc2⟩ := hh
    rcases hx : pyFmt kw .norm t.data with e | l
    · have hni := fmt_no_index kw .norm t.data (by simpa [modeOf, noIndexErr] using hn)
      cases e with
      | indexError => exact absurd hx hni
      | attributeError =>
          exact ⟨fallback_format_failed, by simp [pyFormat, catchPy, hx, Except.map], by decide⟩
      | keyError =>
          exact ⟨fallback_format_failed, by simp [pyFormat, catchPy, hx, Except.map], by decide⟩
      | valueError =>
          exact ⟨fallback_format_failed, by simp [pyFormat, catchPy, hx, Except.map], by decide⟩
    · have hout : l ≠ [] := by
        rw [hd] at hx
        exact fmt_head kw c rest l hc1 hc2 hx
      refine ⟨String.mk l, by simp [pyFormat, catchPy, hx, Except.map], ?_⟩
      intro he
      apply hout
      have hdata : (String.mk l).data = String.data "" := by rw [he]
      simpa using hdata

theorem plist_safe (l : List String) (hne : l ≠ []) (hall : l.all safeStr = true)
    (r : Nat) (kw : List (String × String)) :
    ∃ s, catchPy (chooseAndFormat r kw (.plist l)) = .ok s ∧ s ≠ "" := by
  have hpos : 0 < l.length := List.length_pos.mpr hne
  have hlt : r % l.length < l.length := Nat.mod_lt _ hpos
  have hget : l[r % l.length]? = some (l[r % l.length]) := List.getElem?_eq_getElem hlt
  have hmem : l[r % l.length] ∈ l := List.getElem_mem hlt
  have hsafe := List.all_eq_true.mp hall _ hmem
  have hres := pyFormat_safe _ hsafe kw
  simpa [chooseAndFormat, hget] using hres

theorem chooseFormat_safe (pv : PyVal) (hs : safeVal pv = true) (r : Nat)
    (kw : List (String × String)) :
    ∃ s, catchPy (chooseAndFormat r kw pv) = .ok s ∧ s ≠ "" := by
  cases pv with
  | pstr s =>
      simpa [chooseAndFormat] using pyFormat_safe s (by simpa [safeVal] using hs) kw
  | plist l =>
      have hs2 : l ≠ [] ∧ ∀ x ∈ l, safeStr x = true := by simpa [safeVal] using hs
      exact plist_safe l hs2.1 (List.all_eq_true.mpr hs2.2) r kw
  | pdict d => exact ⟨fallback_format_failed, rfl, by decide⟩
  | pobj => exact ⟨fallback_format_failed, rfl, by decide⟩

theorem dictGet_of_hasKey (d : List (Option String × PyVal)) (sub : String)
    (h : dictHasKey d sub = true) :
    ∃ v, dictGet d sub = some v ∧ v ∈ d.map (fun kv => kv.2) := by
  induction d with
  | nil => simp [dictHasKey] at h
  | cons kv rest ih =>
      rcases hk : (kv.1 == some sub) with _ | _
      · have h' : dictHasKey rest sub = true := by
          simpa [dictHasKey, hk] using h
        obtain ⟨v, hv, hm⟩ := ih h'
        refine ⟨v, ?_, by simp [hm]⟩
        simpa [dictGet, List.find?, hk] using hv
      · exact ⟨kv.2, by simp [dictGet, List.find?, hk], by simp⟩

theorem resolve_safe (d : List (Option String × PyVal))
    (hall : d.all (fun kv => safeVal kv.2 && innerSafe kv.2) = true)
    (sub : String) (r : Nat) (kw : List (String × String)) :
    ∃ s, catchPy (match resolveSub (.pdict d) sub with
        | .ok (.inl _) => .ok fallback_not_found
        | .ok (.inr found) => chooseAndFormat r kw found
        | .error e => .error e) = .ok s ∧ s ≠ "" := by
  by_cases hk : dictHasKey d sub = true
  · obtain ⟨v, hv, hmem⟩ := dictGet_of_hasKey d sub hk
    obtain ⟨kv, hkv, hkv2⟩ := List.mem_map.mp hmem
    have hsv : safeVal v = true := by
      have h5 := List.all_eq_true.mp hall kv hkv
      rw [Bool.and_eq_true] at h5
      rw [← hkv2]
      exact h5.1
    have hres : resolveSub (.pdict d) sub = .ok (.inr v) := by
      simp [resolveSub, hk, hv]
    rw [hres]
    exact chooseFormat_safe v hsv r kw
  · have hk2 : dictHasKey d sub = false := by simpa using hk
    rcases hf : (d.map (fun kv => kv.2)).find? (fun v => match v with
        | PyVal.pdict d2 => dictHasKey d2 sub
        | _ => false) with _ | v
    · have hres : resolveSub (.pdict d) sub = .ok (.inl ()) := by
        simp [resolveSub, hk2, hf]
      rw [hres]
      exact ⟨fallback_not_found, rfl, by decide⟩
    · have hp := List.find?_some hf
      have hvmem := List.mem_of_find?_eq_some hf
      cases v with
      | pstr s => simp at hp
      | plist l => simp at hp
      | pobj => simp at hp
      | pdict d2 =>
          have hkey : dictHasKey d2 sub = true := by simpa using hp
          obtain ⟨w, hw, hwmem⟩ := dictGet_of_hasKey d2 sub hkey
          obtain ⟨kv, hkv, hkv2⟩ := List.mem_map.mp hvmem
          have hinner : innerSafe (.pdict d2) = true := by
            have h5 := List.all_eq_true.mp hall kv hkv
            rw [Bool.and_eq_true] at h5
            rw [← hkv2]
            exact h5.2
          have hsw : safeVal w = true := by
            obtain ⟨kv2, hkva, hkvb⟩ := List.mem_map.mp hwmem
            have h7 : d2.all (fun kv => safeVal kv.2) = true := hinner
            have h6 := List.all_eq_true.mp h7 kv2 hkva
            rw [← hkvb]
            exact h6
          have hres : resolveSub (.pdict d) sub = .ok (.inr w) := by
            simp [resolveSub, hk2, hf, hw]
          rw [hres]
          exact chooseFormat_safe w hsw r kw

set_option maxHeartbeats 1600000 in
theorem attr_cases (cat : String) (pv : PyVal) (h : attrLookup cat = some pv) :
    pv = .pstr baseSystemPrompt ∨ pv = conversation_starters ∨
    pv = therapeutic_techniques ∨ pv = crisis_prompts ∨ pv = assessment_prompts ∨
    pv = emotional_responses ∨ pv = closing_prompts ∨
    pv = .pdict instance_dict_data ∨ pv = .pstr therapyPromptsDoc ∨ pv = .pobj := by
  unfold attrLookup at h
  split_ifs at h
  · exact Or.inl (Option.some.inj h).symm
  · exact Or.inr (Or.inl (Option.some.inj h).symm)
  · exact Or.inr (Or.inr (Or.inl (Option.some.inj h).symm))
  · exact Or.inr (Or.inr (Or.inr (Or.inl (Option.some.inj h).symm)))
  · exact Or.inr (Or.inr (Or.inr (Or.inr (Or.inl (Option.some.inj h).symm))))
  · exact Or.inr (Or.inr (Or.inr (Or.inr (Or.inr
      (Or.inl (Option.some.inj h).symm)))))
  · exact Or.inr (Or.inr (Or.inr (Or.inr (Or.inr (Or.inr
      (Or.inl (Option.some.inj h).symm))))))
  · exact Or.inr (Or.inr (Or.inr (Or.inr (Or.inr (Or.inr (Or.inr
      (Or.inl (Option.some.inj h).symm)))))))
  · exact Or.inr (Or.inr (Or.inr (Or.inr (Or.inr (Or.inr (Or.inr (Or.inr
      (Or.inl (Option.some.inj h).symm))))))))
  · exact Or.inr (Or.inr (Or.inr (Or.inr (Or.inr (Or.inr (Or.inr (Or.inr
      (Or.inr (Option.some.inj h).symm))))))))

/-- C5 counterexample: an unknown category trips the AttributeError of
`getattr` and is answered with the formatting fallback, not with the
generic not-found fallback that the claim assigns to every unresolved
category/subcategory. -/
theorem claim_C5_counterexample :
    get_prompt 0 "no_such_category" (some "first_session") [] =
      .ok fallback_format_failed ∧
    fallback_format_failed ≠ fallback_not_found :=
  ⟨by decide, by decide⟩

/-- C5 (amended): for every category, optional subcategory and keyword set,
get_prompt raises no exception and returns a nonempty string. The generic
fallback "I'm here to support you. What would you like to talk about?" is
returned only on the for-else path, when a resolved category's dictionaries
hold no matching (possibly nested) subcategory key; a category that names
no attribute of the object at all (such as "no_such_category") raises
AttributeError inside the try block and is answered with "I'm here to
listen and support you. What's on your mind?" — the same fallback as a
resolution that succeeds but fails during placeholder formatting. A
category naming a non-template attribute is a genuine getattr hit: methods
and the other object-protocol attributes end in the formatting fallback
(no .values / .format on them), while "__doc__" returns the docstring and
"__dict__" behaves as the dictionary of the data attributes — all nonempty
strings. -/
theorem claim_C5 :
    (∀ (r : Nat) (category : String) (subcategory : Option String)
        (kw : List (String × String)),
      ∃ s, get_prompt r category subcategory kw = .ok s ∧ s ≠ "") ∧
    (∀ (r : Nat) (subcategory : Option String) (kw : List (String × String)),
      get_prompt r "no_such_category" subcategory kw = .ok fallback_format_failed) ∧
    (∀ (r : Nat) (category sub : String) (kw : List (String × String)) (pv : PyVal),
      category ≠ "base_system" → attrLookup category = some pv → sub ≠ "" →
      resolveSub pv sub = .ok (.inl ()) →
      get_prompt r category (some sub) kw = .ok fallback_not_found) ∧
    (∀ (r : Nat) (category sub : String) (kw : List (String × String))
        (pv found : PyVal) (e : PyErr),
      category ≠ "base_system" → attrLookup category = some pv → sub ≠ "" →
      resolveSub pv sub = .ok (.inr found) →
      chooseAndFormat r kw found = .error e → e ≠ .indexError →
      get_prompt r category (some sub) kw = .ok fallback_format_failed) := by
  refine ⟨?_, ?_, ?_, ?_⟩
  · intro r cat sub kw
    by_cases hb : cat = "base_system"
    · refine ⟨baseSystemPrompt, ?_, by decide⟩
      simp [get_prompt, get_prompt_body, hb, catchPy]
    · rcases hA : attrLookup cat with _ | pv
      · exact ⟨fallback_format_failed,
          by simp [get_prompt, get_prompt_body, hb, hA, catchPy], by decide⟩
      · rcases sub with _ | s
        · have hred : get_prompt r cat none kw = catchPy (chooseAndFormat r kw pv) := by
            simp [get_prompt, get_prompt_body, hb, hA]
          rw [hred]
          rcases attr_cases cat pv hA with
            rfl | rfl | rfl | rfl | rfl | rfl | rfl | rfl | rfl | rfl
          · exact chooseFormat_safe (.pstr baseSystemPrompt) (by decide) r kw
          · exact chooseFormat_safe conversation_starters rfl r kw
          · exact chooseFormat_safe therapeutic_techniques rfl r kw
          · exact chooseFormat_safe crisis_prompts rfl r kw
          · exact chooseFormat_safe assessment_prompts rfl r kw
          · exact chooseFormat_safe emotional_responses rfl r kw
          · exact chooseFormat_safe closing_prompts rfl r kw
          · exact chooseFormat_safe (.pdict instance_dict_data) rfl r kw
          · exact chooseFormat_safe (.pstr therapyPromptsDoc) (by decide) r kw
          · exact chooseFormat_safe .pobj rfl r kw
        · by_cases hs0 : s = ""
          · subst hs0
            have hred : get_prompt r cat (some "") kw =
                catchPy (chooseAndFormat r kw pv) := by
              simp [get_prompt, get_prompt_body, hb, hA]
            rw [hred]
            rcases attr_cases cat pv hA with
              rfl | rfl | rfl | rfl | rfl | rfl | rfl | rfl | rfl | rfl
            · exact chooseFormat_safe (.pstr baseSystemPrompt) (by decide) r kw
            · exact chooseFormat_safe conversation_starters rfl r kw
            · exact chooseFormat_safe therapeutic_techniques rfl r kw
            · exact chooseFormat_safe crisis_prompts rfl r kw
            · exact chooseFormat_safe assessment_prompts rfl r kw
            · exact chooseFormat_safe emotional_responses rfl r kw
            · exact chooseFormat_safe closing_prompts rfl r kw
            · exact chooseFormat_safe (.pdict instance_dict_data) rfl r kw
            · exact chooseFormat_safe (.pstr therapyPromptsDoc) (by decide) r kw
            · exact chooseFormat_safe .pobj rfl r kw
          · have hred : get_prompt r cat (some s) kw =
                catchPy (match resolveSub pv s with
                  | .ok (.inl _) => .ok fallback_not_found
                  | .ok (.inr found) => chooseAndFormat r kw found
                  | .error e => .error e) := by
              simp [get_prompt, get_prompt_body, hb, hA, hs0]
            rw [hred]
            rcases attr_cases cat pv hA with
              rfl | rfl | rfl | rfl | rfl | rfl | rfl | rfl | rfl | rfl
            · exact ⟨fallback_format_failed, rfl, by decide⟩
            · exact resolve_safe conversation_starters_data (by decide) s r kw
            · exact resolve_safe therapeutic_techniques_data (by decide) s r kw
            · exact resolve_safe crisis_prompts_data (by decide) s r kw
            · exact resolve_safe assessment_prompts_data (by decide) s r kw
            · exact resolve_safe emotional_responses_data (by decide) s r kw
            · exact resolve_safe closing_prompts_data (by decide) s r kw
            · exact resolve_safe instance_dict_data (by decide) s r kw
            · exact ⟨fallback_format_failed, rfl, by decide⟩
            · exact ⟨fallback_format_failed, rfl, by decide⟩
  · intro r sub kw
    have hA : attrLookup "no_such_category" = none := rfl
    simp [get_prompt, get_prompt_body, hA, catchPy]
  · intro r cat s kw pv h1 h2 h3 h4
    simp [get_prompt, get_prompt_body, h1, h2, h3, h4, catchPy]
  · intro r cat s kw pv found e h1 h2 h3 h4 h5 h6
    cases e with
    | indexError => exact absurd rfl h6
    | attributeError => simp [get_prompt, get_prompt_body, h1, h2, h3, h4, h5, catchPy]
    | keyError => simp [get_prompt, get_prompt_body, h1, h2, h3, h4, h5, catchPy]
    | valueError => simp [get_prompt, get_prompt_body, h1, h2, h3, h4, h5, catchPy]

/-- C5 witness: concrete runs through each clause — a resolvable request,
an unknown category, an unknown subcategory under a known category, and a
known nested subcategory whose template formatting fails for want of
keyword arguments. -/
theorem claim_C5_witness :
    (∃ s, get_prompt 3 "emotional_responses" (some "whatever") [("a", "b")] =
        .ok s ∧ s ≠ "") ∧
    get_prompt 0 "no_such_category" (some "x") [] = .ok fallback_format_failed ∧
    get_prompt 1 "conversation_starters" (some "zzz") [] = .ok fallback_not_found ∧
    get_prompt 0 "therapeutic_techniques" (some "reflection") [] =
      .ok fallback_format_failed :=
  ⟨claim_C5.1 3 "emotional_responses" (some "whatever") [("a", "b")],
   claim_C5.2.1 0 (some "x") [],
   claim_C5.2.2.1 1 "conversation_starters" "zzz" [] conversation_starters
     (by decide) rfl (by decide) rfl,
   claim_C5.2.2.2 0 "therapeutic_techniques" "reflection" [] therapeutic_techniques
     (.plist
       ["It sounds like you're feeling {emotion} about {situation}. Is that right?",
        "I'm hearing that {reflection}. How does that resonate with you?",
        "What I'm picking up is {summary}. Does that capture what you're experiencing?"])
     .keyError (by decide) rfl (by decide) rfl rfl (by decide)⟩

/-- C7 witness: with four recorded turns, the rendered history section is
exactly the last three in order. -/
theorem claim_C7_witness :
    recentContext
        ([(⟨0, "m0", "r0", "neutral", "cognitive_behavioral_therapy", "none"⟩ :
            ConversationEntry)] ++
         [⟨1, "m1", "r1", "neutral", "cognitive_behavioral_therapy", "none"⟩,
          ⟨2, "m2", "r2", "neutral", "cognitive_behavioral_therapy", "none"⟩,
          ⟨3, "m3", "r3", "neutral", "cognitive_behavioral_therapy", "none"⟩]) =
      renderTurn ⟨1, "m1", "r1", "neutral", "cognitive_behavioral_therapy", "none"⟩ ++
      renderTurn ⟨2, "m2", "r2", "neutral", "cognitive_behavioral_therapy", "none"⟩ ++
      renderTurn ⟨3, "m3", "r3", "neutral", "cognitive_behavioral_therapy", "none"⟩ :=
  (claim_C7 [⟨0, "m0", "r0", "neutral", "cognitive_behavioral_therapy", "none"⟩]
    ⟨1, "m1", "r1", "neutral", "cognitive_behavioral_therapy", "none"⟩
    ⟨2, "m2", "r2", "neutral", "cognitive_behavioral_therapy", "none"⟩
    ⟨3, "m3", "r3", "neutral", "cognitive_behavioral_therapy", "none"⟩
    "hello" .neutral .cbt false (by decide)).2.1
